import Mathlib

/-!
Verification of the credential lifecycle and session keep-alive subsystem
of the jms repository (directory `token_manager/`).

The Python sources are shallowly embedded: pure functions become Lean
functions, the SQLAlchemy-backed token table becomes an explicit `Store`
value threaded through the service operations, the in-memory WebSocket
registry becomes a `Registry` value, raised exceptions become `Except`
results, and the outbound HTTP probe of the keep-alive loop becomes an
explicit `ProbeOutcome` parameter describing what the network would
return.  Wall-clock timestamps (`get_china_now()`) are passed in as
explicit `Int` arguments.
-/

set_option autoImplicit false

namespace JMS

/-- Status enumeration of a stored credential (`models.TokenStatus`). -/
inductive TokenStatus where
  | active
  | expired
  | invalid
  deriving DecidableEq, Repr

/-- Modelled from the spec: the account-type tag of a credential
(`AccountType` - referenced by `token_keeper.py` and `server.py` but its
enum definition is absent from the `models.py` present in the source
snapshot).  Per the spec it is the AGENT/NETWORK tag selecting which
keep-alive probe and header convention to use. -/
inductive AccountType where
  | agent
  | network
  deriving DecidableEq, Repr

/-! ## Validators (`validators.py`) -/

/-- Executable model of Python `str.strip()`: drop leading and trailing
whitespace. -/
def pyStrip (s : String) : String :=
  ⟨((s.data.dropWhile Char.isWhitespace).reverse.dropWhile Char.isWhitespace).reverse⟩

/-- Minimum credential length (`validators.MIN_TOKEN_LENGTH`). -/
def MIN_TOKEN_LENGTH : Nat := 10

/-- Maximum credential length (`validators.MAX_TOKEN_LENGTH`). -/
def MAX_TOKEN_LENGTH : Nat := 500

/-- Character allow-list of `validators.TOKEN_PATTERN`
(regex `[A-Za-z0-9_\-\.=+/]`). -/
def tokenCharOk (c : Char) : Bool :=
  c.isAlphanum || c = '_' || c = '-' || c = '.' || c = '=' || c = '+' || c = '/'

/-- Embedding of `validators.validate_token`: returns (ok, error message). -/
def validate_token (token : String) : Bool × String :=
  if token = "" || pyStrip token = "" then
    (false, "Token must not be empty or all whitespace")
  else
    let t := pyStrip token
    if t.length < MIN_TOKEN_LENGTH then
      (false, "Token too short")
    else if t.length > MAX_TOKEN_LENGTH then
      (false, "Token too long")
    else if !(t.toList.all tokenCharOk) then
      (false, "Token contains characters outside the allow-list")
    else
      (true, "")

/-- Embedding of `validators.validate_user_id`. -/
def validate_user_id (user_id : String) : Bool × String :=
  if user_id = "" || pyStrip user_id = "" then
    (false, "User id must not be empty or all whitespace")
  else if (pyStrip user_id).length > 64 then
    (false, "User id longer than 64 characters")
  else
    (true, "")

/-! ## Crypto (`crypto_utils.py`)

The `TokenCrypto` wrapper delegates to the external Fernet primitive of
the `cryptography` package.  Plaintexts and ciphertexts are byte lists.
Modelled from the spec: Fernet itself (symmetric authenticated
encryption) is not part of the repository; it is modelled as an
injective message/key-dependent authentication tag appended to the
message, so that a ciphertext authenticates exactly when its tag was
produced from its body under the decrypting key.  The wrapper logic
(empty-input checks, error mapping) is embedded from `crypto_utils.py`.
-/

/-- Byte-list view of a string. -/
def strBytes (s : String) : List Nat :=
  s.toList.map Char.toNat

/-- A Fernet ciphertext string: either the empty string, or a blob
carrying an encrypted body together with its authentication tag.  The
tag of an unforgeable MAC determines the producing key and the exact
body it was computed over, so it is modelled as that pair: a blob
authenticates under `key` exactly when its tag was produced under `key`
over its own body. -/
inductive Ciphertext where
  | emptyStr
  | blob (body : List Nat) (tagKey : Nat) (tagBody : List Nat)
  deriving DecidableEq, Repr

/-- Fernet encryption model: seal the body with its tag under the key. -/
def fernetEncrypt (key : Nat) (data : List Nat) : Ciphertext :=
  .blob data key data

/-- Whether a ciphertext authenticates under a key: it is a blob whose
tag was produced under that key over its own body. -/
def fernetAuthOk (key : Nat) (ct : Ciphertext) : Bool :=
  match ct with
  | .emptyStr => false
  | .blob body tagKey tagBody => tagKey = key && tagBody = body

/-- Fernet decryption model: returns the body exactly when the
ciphertext authenticates under the key (`InvalidToken` otherwise). -/
def fernetDecrypt (key : Nat) (ct : Ciphertext) : Option (List Nat) :=
  match ct with
  | .emptyStr => none
  | .blob body tagKey tagBody =>
      if tagKey = key && tagBody = body then some body else none

/-- Errors raised by the `TokenCrypto` wrapper (both surface as Python
`ValueError`). -/
inductive CryptoError where
  | emptyInput
  | invalidToken
  deriving DecidableEq, Repr

namespace TokenCrypto

/-- Embedding of `TokenCrypto.encrypt`: rejects empty input, otherwise
produces the authenticated ciphertext. -/
def encrypt (key : Nat) (token : List Nat) : Except CryptoError Ciphertext :=
  if token = [] then .error .emptyInput
  else .ok (fernetEncrypt key token)

/-- Embedding of `TokenCrypto.decrypt`: rejects the empty ciphertext,
otherwise delegates to Fernet and maps `InvalidToken` to an error. -/
def decrypt (key : Nat) (ct : Ciphertext) : Except CryptoError (List Nat) :=
  if ct = .emptyStr then .error .emptyInput
  else
    match fernetDecrypt key ct with
    | some data => .ok data
    | none => .error .invalidToken

end TokenCrypto

/-! ## Credential store (`models.py` + `token_service.py`)

The `tokens` table is a list of rows plus an autoincrement counter.
`models.py` declares `user_id` with `unique=True`, so a committed INSERT
whose `user_id` collides with an existing row fails with an
`SQLAlchemyError` (unique-constraint violation) and is rolled back;
`create_or_update` surfaces that as `TokenServiceError`.
-/

/-- One row of the `tokens` table (`models.Token`).  The `account_type`
column is modelled from the spec (see `AccountType`). -/
structure TokenRow where
  id : Nat
  user_id : String
  account : Option String
  token_value : Ciphertext
  status : TokenStatus
  extension_id : Option String
  account_type : Option AccountType
  created_at : Int
  updated_at : Int
  last_active_at : Option Int
  deriving DecidableEq, Repr

/-- The persisted token table plus the autoincrement id counter. -/
structure Store where
  rows : List TokenRow
  nextId : Nat
  deriving DecidableEq, Repr

/-- Error taxonomy of `token_service.py` (`TokenValidationError`,
`TokenNotFoundError`, generic `TokenServiceError` for storage failures). -/
inductive ServiceError where
  | validationError (msg : String)
  | notFoundError
  | storageError
  deriving DecidableEq, Repr

namespace TokenService

/-- Embedding of `TokenService.create_or_update`.  Follows the source
line by line: validate secret and user id; strip both; when a (truthy)
`account` is supplied, strip it and overwrite `user_id` with it; encrypt
the secret; look up an existing row by `account` only when `account` is
truthy (when `account` is absent no lookup happens at all); update the
found row in place, else insert a fresh row.  Committing an insert whose
`user_id` already exists violates the unique constraint on `user_id` and
rolls back to the pre-call store with a storage error. -/
def create_or_update (key : Nat) (now : Int) (st : Store)
    (token : String) (user_id : String)
    (extension_id : Option String) (account : Option String) :
    Store × Except ServiceError TokenRow :=
  match validate_token token with
  | (false, msg) => (st, .error (.validationError msg))
  | (true, _) =>
  match validate_user_id user_id with
  | (false, msg) => (st, .error (.validationError msg))
  | (true, _) =>
  let token := pyStrip token
  let user_id := pyStrip user_id
  let accountUser : Option String × String :=
    match account with
    | some a => if a ≠ "" then (some (pyStrip a), pyStrip a) else (some a, user_id)
    | none => (none, user_id)
  let account := accountUser.1
  let user_id := accountUser.2
  match TokenCrypto.encrypt key (strBytes token) with
  | .error _ => (st, .error .storageError)
  | .ok encrypted =>
  let existing : Option TokenRow :=
    match account with
    | some a => if a ≠ "" then st.rows.find? (fun r => r.account = some a) else none
    | none => none
  match existing with
  | some r =>
      let r' : TokenRow :=
        { r with
          token_value := encrypted
          status := .active
          extension_id := extension_id
          account := account
          updated_at := now }
      ({ st with rows := st.rows.map (fun q => if q.id = r.id then r' else q) }, .ok r')
  | none =>
      let newRow : TokenRow :=
        { id := st.nextId
          user_id := user_id
          account := account
          token_value := encrypted
          status := .active
          extension_id := extension_id
          account_type := none
          created_at := now
          updated_at := now
          last_active_at := none }
      if st.rows.any (fun r => r.user_id = user_id) then
        (st, .error .storageError)
      else
        ({ rows := st.rows ++ [newRow], nextId := st.nextId + 1 }, .ok newRow)

/-- Embedding of `TokenService.get_by_id`. -/
def get_by_id (st : Store) (token_id : Nat) : Option TokenRow :=
  st.rows.find? (fun r => r.id = token_id)

/-- Embedding of `TokenService.get_by_user`. -/
def get_by_user (st : Store) (user_id : String) : Option TokenRow :=
  st.rows.find? (fun r => r.user_id = pyStrip user_id)

/-- Embedding of `TokenService.get_all` (`include_expired` selects the
status filter). -/
def get_all (st : Store) (include_expired : Bool) : List TokenRow :=
  if include_expired then st.rows
  else st.rows.filter (fun r => r.status = TokenStatus.active)

/-- Embedding of `TokenService.get_active_tokens`. -/
def get_active_tokens (st : Store) : List TokenRow :=
  get_all st false

/-- Embedding of `TokenService.delete`: raises `TokenNotFoundError`
(store untouched) when no row has the id, otherwise removes the row and
returns `True`. -/
def delete (st : Store) (token_id : Nat) : Store × Except ServiceError Bool :=
  match st.rows.find? (fun r => r.id = token_id) with
  | none => (st, .error .notFoundError)
  | some _ => ({ st with rows := st.rows.filter (fun r => r.id ≠ token_id) }, .ok true)

/-- Embedding of `TokenService.update_status`. -/
def update_status (now : Int) (st : Store) (token_id : Nat) (status : TokenStatus) :
    Store × Except ServiceError Bool :=
  match st.rows.find? (fun r => r.id = token_id) with
  | none => (st, .error .notFoundError)
  | some _ =>
      ({ st with
         rows := st.rows.map (fun r =>
           if r.id = token_id then { r with status := status, updated_at := now } else r) },
       .ok true)

/-- Embedding of `TokenService.update_last_active`. -/
def update_last_active (now : Int) (st : Store) (token_id : Nat) :
    Store × Except ServiceError Bool :=
  match st.rows.find? (fun r => r.id = token_id) with
  | none => (st, .error .notFoundError)
  | some _ =>
      ({ st with
         rows := st.rows.map (fun r =>
           if r.id = token_id then { r with last_active_at := some now, updated_at := now } else r) },
       .ok true)

end TokenService

/-! ## Connection registry (`websocket_manager.py`)

The registry is the dict `_connections` keyed by `extension_id`; the
opaque transport handle is modelled by a channel number.  Whether an
outbound send succeeds is an explicit `sendOk` parameter (transport
behaviour).  Channel closes performed by an operation are reported in a
`closed` list so that eviction is observable. -/

/-- Embedding of `websocket_manager.ConnectionInfo`. -/
structure ConnInfo where
  channel : Nat
  extension_id : String
  user_id : Option String
  connected_at : Int
  last_heartbeat : Int
  deriving DecidableEq, Repr

/-- The in-memory connection registry (`WebSocketManager._connections`). -/
structure Registry where
  conns : List ConnInfo
  deriving DecidableEq, Repr

namespace Registry

/-- Dict lookup `self._connections.get(extension_id)`
(`WebSocketManager.get_connection`). -/
def get_connection (reg : Registry) (extension_id : String) : Option ConnInfo :=
  reg.conns.find? (fun c => c.extension_id = extension_id)

/-- Embedding of `WebSocketManager.get_connection_by_user`: linear scan
over current entries. -/
def get_connection_by_user (reg : Registry) (user_id : String) : Option ConnInfo :=
  reg.conns.find? (fun c => c.user_id = some user_id)

/-- Dict write `self._connections[extension_id] = conn`: replaces any
entry with the same key. -/
def put (reg : Registry) (c : ConnInfo) : Registry :=
  ⟨reg.conns.filter (fun d => d.extension_id ≠ c.extension_id) ++ [c]⟩

end Registry

namespace WebSocketManager

/-- Embedding of `WebSocketManager.connect`: accepts the channel; when
an entry for `extension_id` already exists its old channel is closed
first (eviction), then the fresh `ConnectionInfo` is stored.  Returns
the new registry, the channels closed, and the success flag. -/
def connect (reg : Registry) (channel : Nat) (extension_id : String) (now : Int) :
    Registry × List Nat × Bool :=
  let closed : List Nat :=
    match Registry.get_connection reg extension_id with
    | some old => [old.channel]
    | none => []
  let conn : ConnInfo :=
    { channel := channel
      extension_id := extension_id
      user_id := none
      connected_at := now
      last_heartbeat := now }
  (Registry.put reg conn, closed, true)

/-- Embedding of `WebSocketManager.disconnect`: idempotent removal;
returns false when the id is absent. -/
def disconnect (reg : Registry) (extension_id : String) : Registry × Bool :=
  if (reg.conns.any (fun c => c.extension_id = extension_id)) then
    (⟨reg.conns.filter (fun c => c.extension_id ≠ extension_id)⟩, true)
  else
    (reg, false)

/-- Embedding of `WebSocketManager.send_to_extension`: not-found when
the id has no entry; on transport failure (`sendOk = false`) the
connection is evicted via `disconnect`. -/
def send_to_extension (reg : Registry) (extension_id : String) (sendOk : Bool) :
    Registry × Bool :=
  match Registry.get_connection reg extension_id with
  | none => (reg, false)
  | some _ =>
      if sendOk then (reg, true)
      else ((disconnect reg extension_id).1, false)

/-- Embedding of `WebSocketManager.update_heartbeat`. -/
def update_heartbeat (reg : Registry) (extension_id : String) (now : Int) :
    Registry × Bool :=
  if (reg.conns.any (fun c => c.extension_id = extension_id)) then
    (⟨reg.conns.map (fun c =>
        if c.extension_id = extension_id then { c with last_heartbeat := now } else c)⟩,
     true)
  else
    (reg, false)

/-- Embedding of `WebSocketManager.set_user_id`. -/
def set_user_id (reg : Registry) (extension_id : String) (user_id : String) :
    Registry × Bool :=
  if (reg.conns.any (fun c => c.extension_id = extension_id)) then
    (⟨reg.conns.map (fun c =>
        if c.extension_id = extension_id then { c with user_id := some user_id } else c)⟩,
     true)
  else
    (reg, false)

/-- Embedding of `WebSocketManager._check_heartbeats`: collect every
entry whose heartbeat age exceeds the threshold, then disconnect each. -/
def check_heartbeats (reg : Registry) (now : Int) (timeout_threshold : Int) : Registry :=
  let expired := (reg.conns.filter
      (fun c => now - c.last_heartbeat > timeout_threshold)).map (fun c => c.extension_id)
  expired.foldl (fun r e => (disconnect r e).1) reg

/-- One pass of `WebSocketManager._heartbeat_loop`: the threshold is
three times the configured heartbeat interval. -/
def heartbeat_sweep (reg : Registry) (now : Int) (heartbeat_interval : Int) : Registry :=
  check_heartbeats reg now (heartbeat_interval * 3)

end WebSocketManager

/-! ## Message protocol (`message_protocol.py`) and the channel endpoint
(`server.py::websocket_endpoint`)

A parsed JSON message is a dict that may or may not carry each of the
three top-level envelope fields; the payload dict may or may not carry
an `extensionId` string. -/

/-- Payload dict of a parsed message, restricted to the field the
registration path inspects (`extensionId`). -/
structure PayloadDict where
  extensionId : Option String
  deriving DecidableEq, Repr

/-- A parsed message dict: each envelope field may be absent. -/
structure MsgDict where
  type : Option String
  timestamp : Option Int
  payload : Option PayloadDict
  deriving DecidableEq, Repr

/-- The closed set of envelope types (`message_protocol.MessageType`). -/
def validMessageTypes : List String :=
  ["register", "token_upload", "heartbeat",
   "register_ack", "token_ack", "token_expired", "token_deleted",
   "heartbeat_ack", "error"]

/-- Embedding of `message_protocol.validate_message`: the three
top-level fields must be present and the type must be in the closed
set (the source raises `MessageValidationError` otherwise). -/
def validate_message (m : MsgDict) : Bool :=
  m.type.isSome && m.timestamp.isSome && m.payload.isSome &&
    (match m.type with
     | some t => validMessageTypes.contains t
     | none => false)

/-- Embedding of `message_protocol.validate_register_payload`:
`extensionId` must be present and a non-empty string. -/
def validate_register_payload (p : PayloadDict) : Bool :=
  match p.extensionId with
  | some e => e ≠ ""
  | none => false

/-- Observable outcome of handling the first message of a fresh channel
in `server.py::websocket_endpoint`: the registry afterwards, whether an
ERROR envelope was sent, whether the endpoint explicitly closed the
channel, and whether a REGISTER_ACK was sent. -/
structure EndpointResult where
  registry : Registry
  sentError : Bool
  closedChannel : Bool
  sentRegisterAck : Bool
  deriving DecidableEq, Repr

/-- Embedding of the ad-hoc registration step of
`server.py::websocket_endpoint` (lines 419-427): the handler writes a
fabricated `ConnectionInfo` object straight into
`ws_manager._connections[extension_id]` instead of calling
`WebSocketManager.connect`, so no prior channel is closed.  Like
`WebSocketManager.connect` it returns the closed-channel list (always
empty here) to make the difference observable. -/
def serverAdHocRegister (reg : Registry) (channel : Nat) (extension_id : String) (now : Int) :
    Registry × List Nat :=
  (Registry.put reg
     { channel := channel
       extension_id := extension_id
       user_id := none
       connected_at := now
       last_heartbeat := now },
   [])

/-- Embedding of the first-message handling of
`server.py::websocket_endpoint`: parse/validate the envelope (a
validation failure sends an ERROR envelope and the handler returns with
`extension_id` still unset, so no registry entry is touched); a valid
envelope whose type is not `register` gets an ERROR envelope and an
explicit `close(code=1008)`; a valid REGISTER stores a connection entry
(via the ad-hoc dict write) and is answered with REGISTER_ACK. -/
def websocket_endpoint_first (reg : Registry) (channel : Nat) (now : Int) (m : MsgDict) :
    EndpointResult :=
  if validate_message m = false then
    { registry := reg, sentError := true, closedChannel := false, sentRegisterAck := false }
  else if m.type ≠ some "register" then
    { registry := reg, sentError := true, closedChannel := true, sentRegisterAck := false }
  else
    let p := m.payload.getD { extensionId := none }
    if validate_register_payload p = false then
      { registry := reg, sentError := true, closedChannel := false,
        sentRegisterAck := false }
    else
      let eid := p.extensionId.getD ""
      { registry := (serverAdHocRegister reg channel eid now).1
        sentError := false
        closedChannel := false
        sentRegisterAck := true }

/-! ## Keep-alive scheduler (`token_keeper.py`)

The outbound HTTP probe is modelled by an explicit outcome describing
what the network returned for the request: a status code, a timeout, or
a transport error; for the network-account probe the parsed business
payload (fields `code`/`succ`) is part of the outcome.  Per-credential
outcomes are supplied by a `ProbeWorld` assignment. -/

/-- Outcome of the agent keep-alive HTTP GET
(`TokenKeeper.check_token_validity`). -/
inductive ProbeOutcome where
  | status (code : Nat)
  | timeout
  | networkError
  deriving DecidableEq, Repr

/-- Parsed JSON body of the network keep-alive response: the `code` and
`succ` fields, each possibly absent. -/
structure NetBody where
  code : Option Int
  succ : Option Bool
  deriving DecidableEq, Repr

/-- Outcome of the network keep-alive HTTP POST; `body = none` means the
response body could not be parsed as JSON. -/
inductive NetOutcome where
  | resp (code : Nat) (body : Option NetBody)
  | timeout
  | networkError
  deriving DecidableEq, Repr

/-- What the external system would answer to each kind of probe for one
credential. -/
structure ProbeWorld where
  agentResp : ProbeOutcome
  netResp : NetOutcome
  deriving DecidableEq, Repr

namespace TokenKeeper

/-- Embedding of `TokenKeeper._check_response_validity`: 401 and 403 are
invalid; 2xx/3xx are valid; every other status code is conservatively
treated as valid. -/
def check_response_validity (code : Nat) : Bool :=
  if code = 401 then false
  else if code = 403 then false
  else if 200 ≤ code && code < 400 then true
  else true

/-- Embedding of `TokenKeeper.check_token_validity` (agent probe):
timeouts and transport errors never count as invalid. -/
def check_token_validity : ProbeOutcome → Bool
  | .status code => check_response_validity code
  | .timeout => true
  | .networkError => true

/-- Embedding of `TokenKeeper.check_network_token_validity` (network
probe): 401/403 are invalid; a parsed 200 body is valid exactly when
`code == 1` or `succ is True`; an unparsable 2xx body and every other
status, timeout or transport error are conservatively valid. -/
def check_network_token_validity : NetOutcome → Bool
  | .resp code body =>
      if code = 401 then false
      else if code = 403 then false
      else if code = 200 then
        match body with
        | some b => b.code = some 1 || b.succ = some true
        | none => true
      else if 200 ≤ code && code < 300 then true
      else true
  | .timeout => true
  | .networkError => true

/-- The probe dispatch inside `TokenKeeper.keep_alive`: the network
account type uses the network probe, everything else the agent probe. -/
def probe_is_valid (account_type : AccountType) (w : ProbeWorld) : Bool :=
  match account_type with
  | .network => check_network_token_validity w.netResp
  | .agent => check_token_validity w.agentResp

/-- Embedding of `TokenKeeper.keep_alive`: pick the probe by account
type; when valid, update the last-active timestamp and return true;
when invalid, mark the credential EXPIRED and return false.  An error
raised by the store operation propagates (re-raised by the source). -/
def keep_alive (now : Int) (st : Store) (token_id : Nat) (account_type : AccountType)
    (w : ProbeWorld) : Store × Except ServiceError Bool :=
  let is_valid := probe_is_valid account_type w
  if is_valid then
    match TokenService.update_last_active now st token_id with
    | (st', .ok _) => (st', .ok true)
    | (st', .error e) => (st', .error e)
  else
    match TokenService.update_status now st token_id TokenStatus.expired with
    | (st', .ok _) => (st', .ok false)
    | (st', .error e) => (st', .error e)

/-- Embedding of `TokenKeeper.notify_token_expired`: look up the
connection bound to the credential's subject; absence yields `false`
with no exception; otherwise send the CREDENTIAL_EXPIRED envelope via
`send_to_extension`. -/
def notify_token_expired (reg : Registry) (user_id : String) (sendOk : Bool) :
    Registry × Bool :=
  match Registry.get_connection_by_user reg user_id with
  | none => (reg, false)
  | some conn => WebSocketManager.send_to_extension reg conn.extension_id sendOk

/-- Per-cycle statistics of `TokenKeeper.run_keep_alive_cycle`. -/
structure CycleStats where
  total : Nat
  success : Nat
  failed : Nat
  expired : Nat
  deriving DecidableEq, Repr

/-- Running state of one keep-alive cycle: the store, the registry, the
statistics, and the subjects notified so far. -/
structure CycleState where
  store : Store
  registry : Registry
  stats : CycleStats
  notified : List String
  deriving DecidableEq, Repr

/-- The body of the per-credential loop of
`TokenKeeper.run_keep_alive_cycle`: decrypt the secret (a failure is
caught and counted as `failed`), run `keep_alive` with the probe
outcome this credential's request would get, and classify; an invalid
credential additionally triggers one expiry notification.  Any error
escaping `keep_alive` is caught and counted as `failed` without
stopping the loop. -/
def process_token (key : Nat) (now : Int) (world : Nat → ProbeWorld) (sendOk : Bool)
    (s : CycleState) (t : TokenRow) : CycleState :=
  match TokenCrypto.decrypt key t.token_value with
  | .error _ =>
      { s with stats := { s.stats with failed := s.stats.failed + 1 } }
  | .ok _ =>
      let account_type := t.account_type.getD AccountType.agent
      match keep_alive now s.store t.id account_type (world t.id) with
      | (st', .ok true) =>
          { s with
            store := st'
            stats := { s.stats with success := s.stats.success + 1 } }
      | (st', .ok false) =>
          let n := notify_token_expired s.registry t.user_id sendOk
          { store := st'
            registry := n.1
            stats := { s.stats with expired := s.stats.expired + 1 }
            notified := s.notified ++ [t.user_id] }
      | (st', .error _) =>
          { s with
            store := st'
            stats := { s.stats with failed := s.stats.failed + 1 } }

/-- Embedding of `TokenKeeper.run_keep_alive_cycle`: fetch the ACTIVE
credentials, set `total` to their count, then fold the per-credential
loop body over them. -/
def run_keep_alive_cycle (key : Nat) (now : Int) (world : Nat → ProbeWorld)
    (sendOk : Bool) (st : Store) (reg : Registry) : CycleState :=
  let active := TokenService.get_active_tokens st
  let init : CycleState :=
    { store := st
      registry := reg
      stats := { total := active.length, success := 0, failed := 0, expired := 0 }
      notified := [] }
  active.foldl (process_token key now world sendOk) init

end TokenKeeper

/-! ## Concrete fixtures for witnesses and counterexamples -/

/-- Fixture row: subject alice bound to agent ext-a. -/
def rowAlice : TokenRow :=
  { id := 1
    user_id := "alice"
    account := none
    token_value := fernetEncrypt 5 (strBytes "alice_secret_1234567890")
    status := .active
    extension_id := some "ext-a"
    account_type := none
    created_at := 0
    updated_at := 0
    last_active_at := none }

/-- Fixture row: subject bob bound to agent ext-b, same row id as
`rowAlice`. -/
def rowBob : TokenRow :=
  { rowAlice with user_id := "bob", extension_id := some "ext-b" }

/-- Fixture store holding only `rowAlice`. -/
def storeAlice : Store := { rows := [rowAlice], nextId := 2 }

/-- Fixture store holding only `rowBob`. -/
def storeBob : Store := { rows := [rowBob], nextId := 2 }

/-- Fixture connection: agent ext1 on channel 7. -/
def connExt1 : ConnInfo :=
  { channel := 7, extension_id := "ext1", user_id := none,
    connected_at := 0, last_heartbeat := 0 }

/-- Fixture registry holding only `connExt1`. -/
def regExt1 : Registry := { conns := [connExt1] }

/-- Fixture connection with a stale heartbeat (time 0). -/
def connStale : ConnInfo :=
  { channel := 1, extension_id := "old", user_id := none,
    connected_at := 0, last_heartbeat := 0 }

/-- Fixture connection with a fresh heartbeat (time 9). -/
def connFresh : ConnInfo :=
  { channel := 2, extension_id := "fresh", user_id := none,
    connected_at := 0, last_heartbeat := 9 }

/-- Fixture registry holding `connStale` and `connFresh`. -/
def regHb : Registry := { conns := [connStale, connFresh] }

/-- Fixture row whose stored ciphertext does not authenticate under
key 5 (its tag was made under key 9 over a different body), so
decryption fails. -/
def rowBad : TokenRow :=
  { rowAlice with
    id := 3
    user_id := "carol"
    token_value := Ciphertext.blob [1, 2] 9 [3] }

/-- Fixture cycle state over `storeAlice` with an empty registry. -/
def cycleS0 : TokenKeeper.CycleState :=
  { store := storeAlice
    registry := { conns := [] }
    stats := { total := 1, success := 0, failed := 0, expired := 0 }
    notified := [] }

/-- Fixture probe world answering 200 to the agent probe. -/
def wProbe : ProbeWorld := { agentResp := .status 200, netResp := .timeout }

/-- First upload of the C1 scenario: secret `first_secret_1234567890`
for subject `userA`, no account supplied. -/
def c1FirstCall : Store × Except ServiceError TokenRow :=
  TokenService.create_or_update 5 0 { rows := [], nextId := 1 }
    "first_secret_1234567890" "userA" none none

/-- Second upload of the C1 scenario: secret `second_secret_0987654321`
for the same subject `userA`, no account supplied. -/
def c1SecondCall : Store × Except ServiceError TokenRow :=
  TokenService.create_or_update 5 1 c1FirstCall.1
    "second_secret_0987654321" "userA" none none

/-! ## Theorems -/

theorem fernetDecrypt_encrypt (key : Nat) (data : List Nat) :
    fernetDecrypt key (fernetEncrypt key data) = some data := by
  simp [fernetDecrypt, fernetEncrypt]

/-- A non-empty string has a non-empty byte list. -/
theorem strBytes_ne_nil {s : String} (h : s ≠ "") : strBytes s ≠ [] := by
  intro hb
  apply h
  have hdata : s.data = [] := by
    have := List.map_eq_nil_iff.mp hb
    simpa [String.toList] using this
  cases s
  simp_all

/-- C2: for every non-empty string, decrypting the encryption of its
byte representation under the same key returns exactly that byte
representation: decrypt(encrypt(x)) == x. -/
theorem crypto_roundtrip (key : Nat) (s : String) (h : s ≠ "") :
    (TokenCrypto.encrypt key (strBytes s)).bind (TokenCrypto.decrypt key)
      = Except.ok (strBytes s) := by
  have hb : strBytes s ≠ [] := strBytes_ne_nil h
  have henc : TokenCrypto.encrypt key (strBytes s)
      = Except.ok (fernetEncrypt key (strBytes s)) := by
    simp [TokenCrypto.encrypt, hb]
  rw [henc]
  show TokenCrypto.decrypt key (fernetEncrypt key (strBytes s)) = Except.ok (strBytes s)
  simp [TokenCrypto.decrypt, fernetEncrypt, TokenCrypto.decrypt, fernetDecrypt]

/-- Witness for C2 at the concrete secret string used by the spec. -/
theorem crypto_roundtrip_witness :
    (TokenCrypto.encrypt 5 (strBytes "second_secret_0987654321")).bind (TokenCrypto.decrypt 5)
      = Except.ok (strBytes "second_secret_0987654321") :=
  crypto_roundtrip 5 "second_secret_0987654321" (by decide)

/-- C8: decrypt fails (returns no plaintext value at all) on every
ciphertext that is empty or does not authenticate under the decrypting
key; moreover a ciphertext produced under a different key never
authenticates, and a ciphertext whose body no longer matches what its
tag was computed over (tampering) never authenticates. -/
theorem crypto_decrypt_rejects :
    (∀ (key : Nat) (ct : Ciphertext), ct = .emptyStr ∨ fernetAuthOk key ct = false →
        (TokenCrypto.decrypt key ct).isOk = false)
    ∧ (∀ (k1 k2 : Nat) (x : List Nat), k1 ≠ k2 →
        fernetAuthOk k2 (fernetEncrypt k1 x) = false)
    ∧ (∀ (k : Nat) (x y : List Nat), x ≠ y →
        fernetAuthOk k (Ciphertext.blob y k x) = false) := by
  refine ⟨?_, ?_, ?_⟩
  · intro key ct h
    rcases h with h | h
    · simp [TokenCrypto.decrypt, h, Except.isOk, Except.toBool]
    · cases ct with
      | emptyStr => simp [TokenCrypto.decrypt, Except.isOk, Except.toBool]
      | blob body tagKey tagBody =>
          simp only [fernetAuthOk] at h
          simp [TokenCrypto.decrypt, fernetDecrypt, h, Except.isOk, Except.toBool]
  · intro k1 k2 x hk
    simp [fernetAuthOk, fernetEncrypt]
    intro h
    exact absurd h hk
  · intro k x y hxy
    simp [fernetAuthOk]
    intro hcontra
    exact absurd hcontra hxy

/-- Witness for C8: the empty ciphertext, a foreign-key ciphertext and a
tampered ciphertext are all rejected at concrete inputs. -/
theorem crypto_decrypt_rejects_witness :
    (TokenCrypto.decrypt 7 Ciphertext.emptyStr).isOk = false
    ∧ fernetAuthOk 8 (fernetEncrypt 7 [1, 2, 3]) = false
    ∧ fernetAuthOk 7 (Ciphertext.blob [9, 2, 3] 7 [1, 2, 3]) = false :=
  ⟨crypto_decrypt_rejects.1 7 .emptyStr (Or.inl rfl),
   crypto_decrypt_rejects.2.1 7 8 [1, 2, 3] (by decide),
   crypto_decrypt_rejects.2.2 7 [1, 2, 3] [9, 2, 3] (by decide)⟩

/-- C1: evaluation of `TokenService.create_or_update` at the failing
input of the claim.  Two uploads for the same subject `userA` with no
account supplied: after the first call the store holds one row for
`userA` whose decrypted secret is the FIRST secret; the second call
performs no lookup (the source only queries by `account`), attempts a
fresh INSERT that violates the unique constraint on `user_id`, rolls
back, and raises a storage error - so the claimed
lookup-by-subject-and-overwrite (and the spec's own scenario, and the
repository test `test_update_existing_token`) does not happen. -/
theorem create_or_update_no_account_not_idempotent :
    c1FirstCall.1.rows.map (fun r => (r.user_id, TokenCrypto.decrypt 5 r.token_value))
      = [("userA", Except.ok (strBytes "first_secret_1234567890"))]
    ∧ c1SecondCall.2 = Except.error ServiceError.storageError
    ∧ c1SecondCall.1 = c1FirstCall.1 := by
  refine ⟨rfl, rfl, by decide⟩

/-- C7 (amended): `delete` raises `NotFoundError` and leaves the store
unchanged when no row has the id; otherwise it removes the row and
returns `True` (a boolean - the removed row's subject and agent
identifiers are not part of the return value; the API layer re-reads
them via `get_by_id` before calling `delete`). -/
theorem delete_amended (st : Store) (token_id : Nat) :
    (TokenService.get_by_id st token_id = none →
        TokenService.delete st token_id = (st, Except.error ServiceError.notFoundError))
    ∧ (∀ r : TokenRow, TokenService.get_by_id st token_id = some r →
        TokenService.delete st token_id =
          ({ st with rows := st.rows.filter (fun q => q.id ≠ token_id) }, Except.ok true)) := by
  constructor
  · intro h
    unfold TokenService.get_by_id at h
    unfold TokenService.delete
    rw [h]
  · intro r h
    unfold TokenService.get_by_id at h
    unfold TokenService.delete
    rw [h]

/-- Witness for the amended C7 at concrete stores: an absent id raises
not-found and leaves the store unchanged; a present id removes the row
and returns True. -/
theorem delete_amended_witness :
    TokenService.delete storeAlice 99 = (storeAlice, Except.error ServiceError.notFoundError)
    ∧ TokenService.delete storeAlice 1
        = ({ storeAlice with rows := storeAlice.rows.filter (fun q => q.id ≠ 1) },
           Except.ok true) :=
  ⟨(delete_amended storeAlice 99).1 (by decide),
   (delete_amended storeAlice 1).2 rowAlice (by decide)⟩

/-- C7 counterexample: deleting rows with different subject and agent
identifiers produces the identical return value `True`, so the return
value of `delete` cannot carry (and does not carry) the removed row's
subject/agent identifiers as the claim states. -/
theorem delete_returns_only_true :
    (TokenService.delete storeAlice 1).2 = Except.ok true
    ∧ (TokenService.delete storeBob 1).2 = Except.ok true
    ∧ (rowAlice.user_id, rowAlice.extension_id) ≠ (rowBob.user_id, rowBob.extension_id) := by
  refine ⟨rfl, rfl, by decide⟩

/-- Helper: a dict write makes the written connection the one found for
its key. -/
theorem get_connection_put (conns : List ConnInfo) (c : ConnInfo) :
    Registry.get_connection (Registry.put ⟨conns⟩ c) c.extension_id = some c := by
  induction conns with
  | nil => simp [Registry.get_connection, Registry.put, List.find?]
  | cons d l ih =>
      by_cases h : d.extension_id = c.extension_id
      · simp only [Registry.put, List.filter_cons, h]
        simp only [Registry.put] at ih
        simp [h]
        simpa using ih
      · simp only [Registry.put, List.filter_cons] at ih ⊢
        simp [Registry.get_connection, List.find?, h] at ih ⊢

/-- C4: a fresh channel whose first message is a valid envelope of any
type other than REGISTER is answered with an ERROR envelope, the
channel is closed, and the registry is left untouched (so no entry
exists for that connection); only a valid REGISTER first message
creates a registry entry and is answered with REGISTER_ACK. -/
theorem first_message_must_be_register (reg : Registry) (channel : Nat) (now : Int)
    (m : MsgDict) (hvalid : validate_message m = true) :
    (m.type ≠ some "register" →
        websocket_endpoint_first reg channel now m =
          { registry := reg, sentError := true, closedChannel := true,
            sentRegisterAck := false })
    ∧ (∀ p : PayloadDict, m.payload = some p → m.type = some "register" →
        validate_register_payload p = true →
        (websocket_endpoint_first reg channel now m).sentRegisterAck = true
        ∧ (websocket_endpoint_first reg channel now m).sentError = false
        ∧ ∃ c : ConnInfo,
            Registry.get_connection (websocket_endpoint_first reg channel now m).registry
                (p.extensionId.getD "") = some c
            ∧ c.channel = channel) := by
  constructor
  · intro hne
    unfold websocket_endpoint_first
    rw [hvalid]
    simp only [Bool.true_eq_false, if_false]
    rw [if_pos hne]
  · intro p hp ht hvp
    have hbody : websocket_endpoint_first reg channel now m =
        { registry := (serverAdHocRegister reg channel (p.extensionId.getD "") now).1
          sentError := false
          closedChannel := false
          sentRegisterAck := true } := by
      unfold websocket_endpoint_first
      rw [hvalid]
      simp [ht, hp, hvp]
    rw [hbody]
    refine ⟨rfl, rfl, ?_⟩
    cases reg with
    | mk conns => exact ⟨_, get_connection_put conns _, rfl⟩

/-- Witness for C4: a HEARTBEAT first message on an empty registry gets
an ERROR and a close and creates no entry; a REGISTER first message is
acknowledged and creates the entry. -/
theorem first_message_must_be_register_witness :
    (websocket_endpoint_first { conns := [] } 1 0
        { type := some "heartbeat", timestamp := some 0,
          payload := some { extensionId := some "ext-w" } } =
      { registry := { conns := [] }, sentError := true, closedChannel := true,
        sentRegisterAck := false })
    ∧ ((websocket_endpoint_first { conns := [] } 1 0
          { type := some "register", timestamp := some 0,
            payload := some { extensionId := some "ext-w" } }).sentRegisterAck = true
       ∧ (websocket_endpoint_first { conns := [] } 1 0
          { type := some "register", timestamp := some 0,
            payload := some { extensionId := some "ext-w" } }).sentError = false
       ∧ ∃ c : ConnInfo,
           Registry.get_connection
               (websocket_endpoint_first { conns := [] } 1 0
                 { type := some "register", timestamp := some 0,
                   payload := some { extensionId := some "ext-w" } }).registry
               ((some "ext-w" : Option String).getD "") = some c
           ∧ c.channel = 1) :=
  ⟨(first_message_must_be_register { conns := [] } 1 0
      { type := some "heartbeat", timestamp := some 0,
        payload := some { extensionId := some "ext-w" } } (by decide)).1 (by decide),
   (first_message_must_be_register { conns := [] } 1 0
      { type := some "register", timestamp := some 0,
        payload := some { extensionId := some "ext-w" } } (by decide)).2
     { extensionId := some "ext-w" } rfl rfl (by decide)⟩

/-- C5: evaluation at the failing input.  For an extension id that
already has a live entry, `WebSocketManager.connect` first closes the
prior channel (eviction) and then stores the new connection, but the
server's registration path (`websocket_endpoint`, embedded as
`serverAdHocRegister`) writes its fabricated entry directly into the
registry dict and closes nothing - a second entry-creating code path
that bypasses `connect`, contradicting the single-permitted-path part
of the claim. -/
theorem connect_evicts_but_endpoint_bypasses :
    (WebSocketManager.connect regExt1 9 "ext1" 5).2.1 = [7]
    ∧ (serverAdHocRegister regExt1 9 "ext1" 5).2 = []
    ∧ (serverAdHocRegister regExt1 9 "ext1" 5).1
        = (WebSocketManager.connect regExt1 9 "ext1" 5).1 := by
  refine ⟨rfl, rfl, rfl⟩

/-- Helper: the registry produced by `disconnect` is the one with every
entry for that extension id filtered out (also when none existed). -/
theorem disconnect_fst (reg : Registry) (e : String) :
    (WebSocketManager.disconnect reg e).1
      = ⟨reg.conns.filter (fun c => c.extension_id ≠ e)⟩ := by
  unfold WebSocketManager.disconnect
  by_cases h : reg.conns.any (fun c => c.extension_id = e)
  · simp [h]
  · simp only [h, if_false, Bool.false_eq_true]
    cases reg with
    | mk conns =>
        simp only [Registry.mk.injEq]
        symm
        apply List.filter_eq_self.mpr
        intro a ha
        have hne : a.extension_id ≠ e := by
          intro hc
          exact h (List.any_eq_true.mpr ⟨a, ha, by simp [hc]⟩)
        simp [hne]

/-- Helper: disconnecting a batch of ids one by one filters out exactly
the entries whose id is in the batch. -/
theorem foldl_disconnect (ids : List String) : ∀ (reg : Registry),
    ids.foldl (fun r e => (WebSocketManager.disconnect r e).1) reg
      = ⟨reg.conns.filter (fun c => !(ids.contains c.extension_id))⟩ := by
  induction ids with
  | nil =>
      intro reg
      cases reg
      simp
  | cons e ids ih =>
      intro reg
      rw [List.foldl_cons, disconnect_fst, ih]
      cases reg with
      | mk conns =>
          simp only [Registry.mk.injEq, List.filter_filter]
          apply List.filter_congr
          intro x hx
          simp only [List.contains_cons, Bool.not_or, ne_eq, decide_not]
          rw [Bool.and_comm]
          congr 1

/-- Helper: a first match found by `find?` survives a filter that keeps
every matching element. -/
theorem find?_filter_keep {α : Type} (p q : α → Bool) :
    ∀ (l : List α) (a : α), l.find? p = some a →
      (∀ b, b ∈ l → p b = true → q b = true) →
      (l.filter q).find? p = some a := by
  intro l
  induction l with
  | nil =>
      intro a h _
      simp [List.find?] at h
  | cons x l ih =>
      intro a h hall
      cases hpx : p x with
      | true =>
          have hax : some x = some a := by
            simpa [List.find?, hpx] using h
          have hqx : q x = true := hall x (by simp) hpx
          simpa [List.filter_cons, hqx, List.find?, hpx] using hax
      | false =>
          have h2 : l.find? p = some a := by
            simpa [List.find?, hpx] using h
          have hall2 : ∀ b, b ∈ l → p b = true → q b = true := by
            intro b hb
            exact hall b (by simp [hb])
          cases hqx : q x with
          | true =>
              simp only [List.filter_cons, hqx, if_true]
              simpa [List.find?, hpx] using ih a h2 hall2
          | false =>
              simp only [List.filter_cons, hqx, Bool.false_eq_true, if_false]
              exact ih a h2 hall2

/-- C6: when the heartbeat sweep runs, a registered connection whose
last heartbeat is older than three times the heartbeat interval is
evicted - its entry is gone and a subsequent `send_to_extension` for
that extension id returns not-found - while a connection within the
threshold survives the sweep. -/
theorem heartbeat_sweep_classification (reg : Registry) (now interval : Int)
    (eid : String) (c : ConnInfo) (sendOk : Bool)
    (hnodup : (reg.conns.map ConnInfo.extension_id).Nodup)
    (hc : Registry.get_connection reg eid = some c) :
    (now - c.last_heartbeat > interval * 3 →
        Registry.get_connection (WebSocketManager.heartbeat_sweep reg now interval) eid = none
        ∧ (WebSocketManager.send_to_extension
             (WebSocketManager.heartbeat_sweep reg now interval) eid sendOk).2 = false)
    ∧ (¬(now - c.last_heartbeat > interval * 3) →
        Registry.get_connection (WebSocketManager.heartbeat_sweep reg now interval) eid
          = some c) := by
  have hmem : c ∈ reg.conns := List.mem_of_find?_eq_some hc
  have hext : c.extension_id = eid := by
    have := List.find?_some hc
    simpa using this
  have hsweep : WebSocketManager.heartbeat_sweep reg now interval
      = ⟨reg.conns.filter (fun d =>
          !(((reg.conns.filter (fun x => now - x.last_heartbeat > interval * 3)).map
              ConnInfo.extension_id).contains d.extension_id))⟩ := by
    unfold WebSocketManager.heartbeat_sweep WebSocketManager.check_heartbeats
    rw [foldl_disconnect]
  constructor
  · intro htimed
    have heidmem : eid ∈ (reg.conns.filter
        (fun x => now - x.last_heartbeat > interval * 3)).map ConnInfo.extension_id := by
      refine List.mem_map.mpr ⟨c, ?_, hext⟩
      refine List.mem_filter.mpr ⟨hmem, ?_⟩
      simpa using htimed
    have hcontains : ((reg.conns.filter
        (fun x => now - x.last_heartbeat > interval * 3)).map
          ConnInfo.extension_id).contains eid = true :=
      List.elem_eq_true_of_mem heidmem
    have hnone : Registry.get_connection
        (WebSocketManager.heartbeat_sweep reg now interval) eid = none := by
      rw [hsweep]
      unfold Registry.get_connection
      apply List.find?_eq_none.mpr
      intro d hd hp
      have hdeid : d.extension_id = eid := by simpa using hp
      have hd2 := (List.mem_filter.mp hd).2
      rw [hdeid, hcontains] at hd2
      simp at hd2
    refine ⟨hnone, ?_⟩
    unfold WebSocketManager.send_to_extension
    rw [hnone]
  · intro hok
    rw [hsweep]
    unfold Registry.get_connection at hc ⊢
    apply find?_filter_keep _ _ _ _ hc
    intro b hb hpb
    have hbext : b.extension_id = eid := by simpa using hpb
    have hnotin : eid ∉ (reg.conns.filter
        (fun x => now - x.last_heartbeat > interval * 3)).map ConnInfo.extension_id := by
      intro hin
      obtain ⟨d, hdmem, hdext⟩ := List.mem_map.mp hin
      have hdconns := (List.mem_filter.mp hdmem).1
      have hdtimed := (List.mem_filter.mp hdmem).2
      have hdc : d = c :=
        List.inj_on_of_nodup_map hnodup hdconns hmem (by rw [hdext, hext])
      rw [hdc] at hdtimed
      simp at hdtimed
      exact hok hdtimed
    have hfalse : ((reg.conns.filter
        (fun x => now - x.last_heartbeat > interval * 3)).map
          ConnInfo.extension_id).contains b.extension_id = false := by
      rw [hbext, Bool.eq_false_iff]
      intro hcontra
      exact hnotin (List.elem_iff.mp hcontra)
    simp [hfalse]
    intro x hx htimedx hxeq
    refine hnotin (List.mem_map.mpr ⟨x, List.mem_filter.mpr ⟨hx, by simpa using htimedx⟩, ?_⟩)
    rw [hxeq, hbext]

/-- Helper: an id-preserving in-place row update keeps the updated row
as the first match of a lookup by id. -/
theorem find?_map_update (id : Nat) (upd : TokenRow → TokenRow)
    (hid : ∀ r, (upd r).id = r.id) :
    ∀ (l : List TokenRow) (r : TokenRow),
      l.find? (fun q => q.id = id) = some r →
      (l.map (fun q => if q.id = id then upd q else q)).find? (fun q => q.id = id)
        = some (upd r) := by
  intro l
  induction l with
  | nil =>
      intro r h
      simp [List.find?] at h
  | cons x l ih =>
      intro r h
      by_cases hx : x.id = id
      · have hxr : x = r := by simpa [List.find?, hx] using h
        subst hxr
        simp [List.map_cons, hx, List.find?, hid]
      · have h2 : l.find? (fun q => q.id = id) = some r := by
          simpa [List.find?, hx] using h
        simp only [List.map_cons, hx, if_false]
        have hfx : (decide (x.id = id)) = false := by simp [hx]
        simp only [List.find?, hfx]
        exact ih r h2

/-- Helper: on a store containing the row, a valid agent probe makes
`keep_alive` update the row's last-active timestamp and return true. -/
theorem keep_alive_agent_of_valid (st : Store) (now : Int) (id : Nat) (w : ProbeWorld)
    (r : TokenRow) (hr : TokenService.get_by_id st id = some r)
    (hv : TokenKeeper.check_token_validity w.agentResp = true) :
    TokenKeeper.keep_alive now st id .agent w
      = ({ st with rows := st.rows.map (fun q => if q.id = id then
            { q with last_active_at := some now, updated_at := now } else q) },
         Except.ok true) := by
  unfold TokenKeeper.keep_alive
  have hd : TokenKeeper.probe_is_valid .agent w = true := hv
  rw [hd]
  simp only [if_true]
  unfold TokenService.update_last_active
  unfold TokenService.get_by_id at hr
  rw [hr]

/-- Helper: on a store containing the row, an invalid agent probe makes
`keep_alive` flip the row's status to EXPIRED and return false. -/
theorem keep_alive_agent_of_invalid (st : Store) (now : Int) (id : Nat) (w : ProbeWorld)
    (r : TokenRow) (hr : TokenService.get_by_id st id = some r)
    (hv : TokenKeeper.check_token_validity w.agentResp = false) :
    TokenKeeper.keep_alive now st id .agent w
      = ({ st with rows := st.rows.map (fun q => if q.id = id then
            { q with status := TokenStatus.expired, updated_at := now } else q) },
         Except.ok false) := by
  unfold TokenKeeper.keep_alive
  have hd : TokenKeeper.probe_is_valid .agent w = false := hv
  rw [hd]
  simp only [Bool.false_eq_true, if_false]
  unfold TokenService.update_status
  unfold TokenService.get_by_id at hr
  rw [hr]

/-- C3: classification of a keep-alive probe for an ACTIVE credential of
the default (agent) account type.  An authentication-rejected response
(401 or 403) returns False and flips the stored status ACTIVE→EXPIRED;
in the cycle loop this triggers exactly one expiry notification, and a
missing bound connection makes the notification return False without
any exception.  A successful (2xx) response returns True, leaves the
status ACTIVE and updates the last-active timestamp.  An inconclusive
outcome - timeout, transport error, or a server error (5xx) - leaves
the status unchanged. -/
theorem keep_alive_probe_classification (st : Store) (reg : Registry) (now : Int)
    (w : ProbeWorld) (r : TokenRow) (id : Nat) (sendOk : Bool) (u : String)
    (hr : TokenService.get_by_id st id = some r) (hactive : r.status = .active) :
    (∀ code : Nat, code = 401 ∨ code = 403 → w.agentResp = .status code →
        (TokenKeeper.keep_alive now st id .agent w).2 = Except.ok false
        ∧ TokenService.get_by_id (TokenKeeper.keep_alive now st id .agent w).1 id
            = some { r with status := .expired, updated_at := now })
    ∧ (Registry.get_connection_by_user reg u = none →
        TokenKeeper.notify_token_expired reg u sendOk = (reg, false))
    ∧ (∀ code : Nat, 200 ≤ code → code < 300 → w.agentResp = .status code →
        (TokenKeeper.keep_alive now st id .agent w).2 = Except.ok true
        ∧ TokenService.get_by_id (TokenKeeper.keep_alive now st id .agent w).1 id
            = some { r with last_active_at := some now, updated_at := now }
        ∧ ({ r with last_active_at := some now, updated_at := now } :
              TokenRow).status = TokenStatus.active)
    ∧ ((w.agentResp = .timeout ∨ w.agentResp = .networkError ∨
          (∃ code : Nat, 500 ≤ code ∧ w.agentResp = .status code)) →
        ∃ r2 : TokenRow,
          TokenService.get_by_id (TokenKeeper.keep_alive now st id .agent w).1 id = some r2
          ∧ r2.status = TokenStatus.active)
    ∧ (∀ (key : Nat) (world : Nat → ProbeWorld) (s : TokenKeeper.CycleState)
          (t : TokenRow) (d : List Nat) (r0 : TokenRow),
        TokenCrypto.decrypt key t.token_value = Except.ok d →
        t.account_type = none →
        TokenService.get_by_id s.store t.id = some r0 →
        TokenKeeper.check_token_validity (world t.id).agentResp = false →
        (TokenKeeper.process_token key now world sendOk s t).notified
          = s.notified ++ [t.user_id]) := by
  refine ⟨?_, ?_, ?_, ?_, ?_⟩
  · intro code hcode hw
    have hv : TokenKeeper.check_token_validity w.agentResp = false := by
      rw [hw]
      rcases hcode with rfl | rfl <;> rfl
    rw [keep_alive_agent_of_invalid st now id w r hr hv]
    refine ⟨rfl, ?_⟩
    unfold TokenService.get_by_id at hr ⊢
    exact find?_map_update id
      (fun q => { q with status := TokenStatus.expired, updated_at := now })
      (fun q => rfl) st.rows r hr
  · intro hnone
    unfold TokenKeeper.notify_token_expired
    rw [hnone]
  · intro code h1 h2 hw
    have hv : TokenKeeper.check_token_validity w.agentResp = true := by
      rw [hw]
      unfold TokenKeeper.check_token_validity TokenKeeper.check_response_validity
      have hc1 : code ≠ 401 := by omega
      have hc2 : code ≠ 403 := by omega
      have hc3 : (200 ≤ code && code < 400) = true := by
        simp only [Bool.and_eq_true, decide_eq_true_eq]
        omega
      simp [hc1, hc2, hc3]
    rw [keep_alive_agent_of_valid st now id w r hr hv]
    refine ⟨rfl, ?_, hactive⟩
    unfold TokenService.get_by_id at hr ⊢
    exact find?_map_update id
      (fun q => { q with last_active_at := some now, updated_at := now })
      (fun q => rfl) st.rows r hr
  · intro hw
    have hv : TokenKeeper.check_token_validity w.agentResp = true := by
      rcases hw with hw | hw | ⟨code, hcode, hw⟩
      · rw [hw]; rfl
      · rw [hw]; rfl
      · rw [hw]
        unfold TokenKeeper.check_token_validity TokenKeeper.check_response_validity
        have hc1 : code ≠ 401 := by omega
        have hc2 : code ≠ 403 := by omega
        simp [hc1, hc2]
    rw [keep_alive_agent_of_valid st now id w r hr hv]
    refine ⟨{ r with last_active_at := some now, updated_at := now }, ?_, ?_⟩
    · unfold TokenService.get_by_id at hr ⊢
      exact find?_map_update id
        (fun q => { q with last_active_at := some now, updated_at := now })
        (fun q => rfl) st.rows r hr
    · exact hactive
  · intro key world s t d r0 hdec htype hst hv
    unfold TokenKeeper.process_token
    rw [hdec]
    rw [htype]
    have hka := keep_alive_agent_of_invalid s.store now t.id (world t.id) r0 hst hv
    simp only [Option.getD]
    rw [hka]

/-- Witness for C3 at a concrete single-row ACTIVE store: a 401 probe
expires the row and returns false, a missing bound connection makes the
notification return false, a 204 probe keeps it active and stamps the
last-active time, a 500 probe leaves the status active, and the cycle
loop records exactly one notification for a 401. -/
theorem keep_alive_probe_classification_witness :
    ((TokenKeeper.keep_alive 3 storeAlice 1 .agent
        { agentResp := .status 401, netResp := .timeout }).2 = Except.ok false
     ∧ TokenService.get_by_id (TokenKeeper.keep_alive 3 storeAlice 1 .agent
          { agentResp := .status 401, netResp := .timeout }).1 1
         = some { rowAlice with status := .expired, updated_at := 3 })
    ∧ TokenKeeper.notify_token_expired { conns := [] } "alice" true = ({ conns := [] }, false)
    ∧ ((TokenKeeper.keep_alive 3 storeAlice 1 .agent
          { agentResp := .status 204, netResp := .timeout }).2 = Except.ok true)
    ∧ (∃ r2 : TokenRow,
        TokenService.get_by_id (TokenKeeper.keep_alive 3 storeAlice 1 .agent
            { agentResp := .status 500, netResp := .timeout }).1 1 = some r2
        ∧ r2.status = TokenStatus.active)
    ∧ (TokenKeeper.process_token 5 3
          (fun _ => { agentResp := .status 401, netResp := .timeout }) true
          { store := storeAlice, registry := { conns := [] },
            stats := { total := 1, success := 0, failed := 0, expired := 0 },
            notified := [] } rowAlice).notified = [] ++ ["alice"] :=
  ⟨(keep_alive_probe_classification storeAlice { conns := [] } 3
      { agentResp := .status 401, netResp := .timeout } rowAlice 1 true "alice"
      (by decide) (by decide)).1 401 (Or.inl rfl) rfl,
   (keep_alive_probe_classification storeAlice { conns := [] } 3
      { agentResp := .status 401, netResp := .timeout } rowAlice 1 true "alice"
      (by decide) (by decide)).2.1 (by decide),
   ((keep_alive_probe_classification storeAlice { conns := [] } 3
      { agentResp := .status 204, netResp := .timeout } rowAlice 1 true "alice"
      (by decide) (by decide)).2.2.1 204 (by decide) (by decide) rfl).1,
   (keep_alive_probe_classification storeAlice { conns := [] } 3
      { agentResp := .status 500, netResp := .timeout } rowAlice 1 true "alice"
      (by decide) (by decide)).2.2.2.1 (Or.inr (Or.inr ⟨500, by decide, rfl⟩)),
   (keep_alive_probe_classification storeAlice { conns := [] } 3
      { agentResp := .status 401, netResp := .timeout } rowAlice 1 true "alice"
      (by decide) (by decide)).2.2.2.2 5
      (fun _ => { agentResp := .status 401, netResp := .timeout })
      { store := storeAlice, registry := { conns := [] },
        stats := { total := 1, success := 0, failed := 0, expired := 0 },
        notified := [] } rowAlice (strBytes "alice_secret_1234567890") rowAlice
      rfl rfl (by decide) rfl⟩

/-- C10 (implicit): an inconclusive agent probe - a timeout, a
transport error, or any HTTP status other than 401/403 (including
non-2xx statuses such as 500) - is classified as valid, so `keep_alive`
calls `update_last_active` and the credential's last-active timestamp
advances to the probe time even though no successful probe occurred:
the last-active timestamp does not record only successful probes. -/
theorem inconclusive_probe_advances_last_active (st : Store) (now : Int) (id : Nat)
    (w : ProbeWorld) (r : TokenRow)
    (hr : TokenService.get_by_id st id = some r) :
    (∀ code : Nat, code ≠ 401 → code ≠ 403 → w.agentResp = .status code →
        TokenKeeper.check_token_validity w.agentResp = true
        ∧ (TokenKeeper.keep_alive now st id .agent w).2 = Except.ok true
        ∧ TokenService.get_by_id (TokenKeeper.keep_alive now st id .agent w).1 id
            = some { r with last_active_at := some now, updated_at := now })
    ∧ ((w.agentResp = .timeout ∨ w.agentResp = .networkError) →
        TokenKeeper.check_token_validity w.agentResp = true
        ∧ (TokenKeeper.keep_alive now st id .agent w).2 = Except.ok true
        ∧ TokenService.get_by_id (TokenKeeper.keep_alive now st id .agent w).1 id
            = some { r with last_active_at := some now, updated_at := now }) := by
  constructor
  · intro code h1 h2 hw
    have hv : TokenKeeper.check_token_validity w.agentResp = true := by
      rw [hw]
      unfold TokenKeeper.check_token_validity TokenKeeper.check_response_validity
      simp [h1, h2]
    refine ⟨hv, ?_, ?_⟩
    · rw [keep_alive_agent_of_valid st now id w r hr hv]
    · rw [keep_alive_agent_of_valid st now id w r hr hv]
      unfold TokenService.get_by_id at hr ⊢
      exact find?_map_update id
        (fun q => { q with last_active_at := some now, updated_at := now })
        (fun q => rfl) st.rows r hr
  · intro hw
    have hv : TokenKeeper.check_token_validity w.agentResp = true := by
      rcases hw with hw | hw <;> rw [hw] <;> rfl
    refine ⟨hv, ?_, ?_⟩
    · rw [keep_alive_agent_of_valid st now id w r hr hv]
    · rw [keep_alive_agent_of_valid st now id w r hr hv]
      unfold TokenService.get_by_id at hr ⊢
      exact find?_map_update id
        (fun q => { q with last_active_at := some now, updated_at := now })
        (fun q => rfl) st.rows r hr

/-- Witness for C10: a 500 (server-error) probe at time 3 counts as
valid and stamps `last_active_at = 3` on the stored row. -/
theorem inconclusive_probe_advances_last_active_witness :
    TokenKeeper.check_token_validity
        ({ agentResp := .status 500, netResp := .timeout } : ProbeWorld).agentResp = true
    ∧ (TokenKeeper.keep_alive 3 storeAlice 1 .agent
        { agentResp := .status 500, netResp := .timeout }).2 = Except.ok true
    ∧ TokenService.get_by_id (TokenKeeper.keep_alive 3 storeAlice 1 .agent
        { agentResp := .status 500, netResp := .timeout }).1 1
        = some { rowAlice with last_active_at := some 3, updated_at := 3 } :=
  (inconclusive_probe_advances_last_active storeAlice 3 1
      { agentResp := .status 500, netResp := .timeout } rowAlice (by decide)).1
    500 (by decide) (by decide) rfl

/-- Helper: each loop iteration of the keep-alive cycle increments
exactly one of the success/failed/expired counters and never touches
the pre-set total. -/
theorem process_token_stats (key : Nat) (now : Int) (world : Nat → ProbeWorld)
    (sendOk : Bool) (s : TokenKeeper.CycleState) (t : TokenRow) :
    (TokenKeeper.process_token key now world sendOk s t).stats.total = s.stats.total
    ∧ (TokenKeeper.process_token key now world sendOk s t).stats.success
      + (TokenKeeper.process_token key now world sendOk s t).stats.failed
      + (TokenKeeper.process_token key now world sendOk s t).stats.expired
      = s.stats.success + s.stats.failed + s.stats.expired + 1 := by
  unfold TokenKeeper.process_token
  cases hdec : TokenCrypto.decrypt key t.token_value with
  | error e =>
      dsimp only
      exact ⟨rfl, by omega⟩
  | ok d =>
      dsimp only
      cases hka : TokenKeeper.keep_alive now s.store t.id
          (t.account_type.getD AccountType.agent) (world t.id) with
      | mk st2 res =>
          cases res with
          | ok b =>
              cases b with
              | true =>
                  dsimp only
                  exact ⟨rfl, by omega⟩
              | false =>
                  dsimp only
                  exact ⟨rfl, by omega⟩
          | error e =>
              dsimp only
              exact ⟨rfl, by omega⟩

/-- Helper: folding the loop body over a batch of credentials processes
every one of them - the three outcome counters grow by exactly the
batch length and the total is untouched. -/
theorem foldl_process_token (key : Nat) (now : Int) (world : Nat → ProbeWorld)
    (sendOk : Bool) :
    ∀ (ts : List TokenRow) (s : TokenKeeper.CycleState),
      (ts.foldl (TokenKeeper.process_token key now world sendOk) s).stats.total
          = s.stats.total
      ∧ (ts.foldl (TokenKeeper.process_token key now world sendOk) s).stats.success
        + (ts.foldl (TokenKeeper.process_token key now world sendOk) s).stats.failed
        + (ts.foldl (TokenKeeper.process_token key now world sendOk) s).stats.expired
        = s.stats.success + s.stats.failed + s.stats.expired + ts.length := by
  intro ts
  induction ts with
  | nil =>
      intro s
      exact ⟨rfl, by simp⟩
  | cons t ts ih =>
      intro s
      rw [List.foldl_cons]
      obtain ⟨h1, h2⟩ := ih (TokenKeeper.process_token key now world sendOk s t)
      obtain ⟨g1, g2⟩ := process_token_stats key now world sendOk s t
      refine ⟨by rw [h1, g1], ?_⟩
      rw [h2, g2]
      simp [List.length_cons]
      omega

/-- C9: one keep-alive cycle processes every ACTIVE credential even
when some of them fail: the returned statistics always satisfy
total = number of ACTIVE credentials and success + failed + expired =
total (so a failure never aborts the remaining credentials), and a
per-credential failure (here a decryption error) increments exactly the
failed counter and leaves the store untouched. -/
theorem cycle_isolates_per_credential_failures (key : Nat) (now : Int)
    (world : Nat → ProbeWorld) (sendOk : Bool) (st : Store) (reg : Registry) :
    (TokenKeeper.run_keep_alive_cycle key now world sendOk st reg).stats.total
        = (TokenService.get_active_tokens st).length
    ∧ (TokenKeeper.run_keep_alive_cycle key now world sendOk st reg).stats.success
      + (TokenKeeper.run_keep_alive_cycle key now world sendOk st reg).stats.failed
      + (TokenKeeper.run_keep_alive_cycle key now world sendOk st reg).stats.expired
      = (TokenKeeper.run_keep_alive_cycle key now world sendOk st reg).stats.total
    ∧ (∀ (s : TokenKeeper.CycleState) (t : TokenRow),
        (TokenCrypto.decrypt key t.token_value).isOk = false →
        (TokenKeeper.process_token key now world sendOk s t).stats.failed
            = s.stats.failed + 1
        ∧ (TokenKeeper.process_token key now world sendOk s t).store = s.store) := by
  refine ⟨?_, ?_, ?_⟩
  · unfold TokenKeeper.run_keep_alive_cycle
    rw [(foldl_process_token key now world sendOk _ _).1]
  · unfold TokenKeeper.run_keep_alive_cycle
    rw [(foldl_process_token key now world sendOk _ _).1,
        (foldl_process_token key now world sendOk _ _).2]
    simp
  · intro s t hdec
    unfold TokenKeeper.process_token
    cases hd : TokenCrypto.decrypt key t.token_value with
    | error e => exact ⟨rfl, rfl⟩
    | ok d =>
        rw [hd] at hdec
        simp [Except.isOk, Except.toBool] at hdec

/-- Witness for C9: processing a credential whose ciphertext does not
decrypt increments exactly the failed counter and leaves the store
unchanged. -/
theorem cycle_isolates_per_credential_failures_witness :
    (TokenKeeper.process_token 5 3 (fun _ => wProbe) true cycleS0 rowBad).stats.failed
        = cycleS0.stats.failed + 1
    ∧ (TokenKeeper.process_token 5 3 (fun _ => wProbe) true cycleS0 rowBad).store
        = cycleS0.store :=
  (cycle_isolates_per_credential_failures 5 3 (fun _ => wProbe) true storeAlice
      { conns := [] }).2.2 cycleS0 rowBad (by decide)

/-- Witness for C6: with heartbeat interval 1 at time 10, the
connection whose last heartbeat was at time 0 (age 10 > 3) is evicted
and unreachable, while the one whose last heartbeat was at time 9
(age 1 ≤ 3) survives. -/
theorem heartbeat_sweep_classification_witness :
    (Registry.get_connection (WebSocketManager.heartbeat_sweep regHb 10 1) "old" = none
     ∧ (WebSocketManager.send_to_extension
          (WebSocketManager.heartbeat_sweep regHb 10 1) "old" true).2 = false)
    ∧ Registry.get_connection (WebSocketManager.heartbeat_sweep regHb 10 1) "fresh"
        = some connFresh :=
  ⟨(heartbeat_sweep_classification regHb 10 1 "old" connStale true
      (by decide) (by decide)).1 (by decide),
   (heartbeat_sweep_classification regHb 10 1 "fresh" connFresh true
      (by decide) (by decide)).2 (by decide)⟩



end JMS
